import Mathlib

/-!
Shallow embedding of the raster change-detection and zonal-aggregation engine
of `app/utils/raster_operations.py` (class `RasterOperations`).

Pixel samples are modelled as exact rationals (the source uses IEEE floats);
numpy 2-D arrays are lists of rows; the nodata sentinel is `-9999` as in the
source.  External collaborators (rasterio file reading, `rasterio.warp.reproject`,
`rasterio.mask.mask`) are modelled as explicit inputs or oracle parameters:
a file-backed raster is given directly by its band-1 array, transform and CRS,
and the per-zone geometric masking performed by `rasterio.mask.mask` is given
as part of the zone value.
-/

namespace RasterOps

/-- A 2-D sample array (a numpy `ndarray`), as a list of rows. -/
abbrev Arr2 := List (List ℚ)

/-- Number of columns of a 2-D array: length of the first row (0 if empty). -/
def cols {α : Type} (a : List (List α)) : Nat := (a.head?.map List.length).getD 0

/-- The numpy shape `(rows, cols)` of a 2-D array. -/
def shape2 {α : Type} (a : List (List α)) : Nat × Nat := (a.length, cols a)

/-- Rectangularity: every row has the common column count (numpy arrays are
always rectangular; ragged lists do not arise from the source). -/
def Rect {α : Type} (a : List (List α)) : Prop := ∀ row ∈ a, row.length = cols a

instance {α : Type} (a : List (List α)) : Decidable (Rect a) :=
  decidable_of_iff (∀ row ∈ a, row.length = cols a) Iff.rfl

/-- Pixel lookup at row `i`, column `j`. -/
def pixA {α : Type} (g : List (List α)) (i j : Nat) : Option α :=
  g[i]?.bind (fun r => r[j]?)

/-- Total pixel lookup with default `0` (only ever used at in-bounds indices). -/
def pixD (a : Arr2) (i j : Nat) : ℚ := (pixA a i j).getD 0

/-- numpy axis broadcasting: two axis sizes combine iff they are equal or one
of them is 1. -/
def bcast (m n : Nat) : Option Nat :=
  if m = n then some m else if m = 1 then some n else if n = 1 then some m else none

/-- Index into a possibly broadcast axis: an axis of size 1 is repeated. -/
def bidx (len i : Nat) : Nat := if len = 1 then 0 else i

/-- Elementwise binary numpy operation with 2-D broadcasting; `none` models the
`ValueError` numpy raises on incompatible shapes (uncaught in the source). -/
def npBinop (f : ℚ → ℚ → ℚ) (a b : Arr2) : Option Arr2 :=
  match bcast a.length b.length, bcast (cols a) (cols b) with
  | some r, some c =>
      some ((List.range r).map (fun i => (List.range c).map (fun j =>
        f (pixD a (bidx a.length i) (bidx (cols a) j))
          (pixD b (bidx b.length i) (bidx (cols b) j)))))
  | _, _ => none

/-- `np.clip x lo hi`. -/
def npClip (x lo hi : ℚ) : ℚ := min (max x lo) hi

/-- One pixel of `RasterOperations.compute_ndvi`:
`np.where((nir + red) == 0, 0, (nir - red) / (nir + red))` followed by
`np.clip(ndvi, -1, 1)`. -/
def ndviPixel (red nir : ℚ) : ℚ :=
  npClip (if nir + red = 0 then 0 else (nir - red) / (nir + red)) (-1) 1

/-- `RasterOperations.compute_ndvi` on in-memory band arrays. -/
def compute_ndvi (red nir : Arr2) : Option Arr2 := npBinop ndviPixel red nir

/-- An affine pixel-to-world transform (six coefficients, as in `rasterio.Affine`). -/
structure AffineT where
  a : ℚ
  b : ℚ
  c : ℚ
  d : ℚ
  e : ℚ
  f : ℚ
deriving DecidableEq

/-- A file-backed raster as the source reads it: the band-1 sample array together
with the transform and CRS stored in the file profile. -/
structure FileRaster where
  data : Arr2
  transform : AffineT
  crs : String
deriving DecidableEq

/-- A raster argument of the duck-typed operations: a file reference (already
read into memory) or a bare in-memory numpy array (which carries no transform
and no CRS). -/
inductive RasterInput where
  | file : FileRaster → RasterInput
  | mem : Arr2 → RasterInput
deriving DecidableEq

/-- The sample array of a raster argument. -/
def loadArray : RasterInput → Arr2
  | .file f => f.data
  | .mem a => a

/-- CRS attached to vector outputs: the source file CRS for file input, the
hardcoded `"EPSG:4326"` fallback for in-memory arrays (as in the source). -/
def loadCrs : RasterInput → String
  | .file f => f.crs
  | .mem _ => "EPSG:4326"

/-- Elementwise negation of a 2-D array. -/
def npNeg (a : Arr2) : Arr2 := a.map (fun row => row.map (fun x => -x))

/-- `RasterOperations.ndvi_difference`.  When both inputs are file-backed and
their shape or transform differ, the second raster is silently resampled onto
the first raster's grid by `rasterio.warp.reproject` (an external collaborator,
modelled by the `resample` oracle, whose output is written into a destination
array shaped like the first raster) and the difference `ndvi2 - ndvi1` is then
computed; otherwise the difference is taken directly (numpy broadcasting).
The source raises no alignment error on mismatched grids. -/
def ndvi_difference (resample : FileRaster → FileRaster → Arr2)
    (t1 t2 : RasterInput) : Option Arr2 :=
  match t1, t2 with
  | .file f1, .file f2 =>
      if shape2 f1.data ≠ shape2 f2.data ∨ f1.transform ≠ f2.transform then
        npBinop (fun x y => x - y) (resample f2 f1) f1.data
      else
        npBinop (fun x y => x - y) f2.data f1.data
  | .file f1, .mem a2 => npBinop (fun x y => x - y) a2 f1.data
  | .mem a1, .file f2 => npBinop (fun x y => x - y) f2.data a1
  | .mem a1, .mem a2 => npBinop (fun x y => x - y) a2 a1

/-! ### Vectorization (`rasterio.features.shapes` and its consumers) -/

/-- The 4-neighbours of a pixel position (rasterio's default connectivity). -/
def nbrs (p : Nat × Nat) : List (Nat × Nat) :=
  [(p.1 + 1, p.2), (p.1, p.2 + 1)]
    ++ (if 0 < p.1 then [(p.1 - 1, p.2)] else [])
    ++ (if 0 < p.2 then [(p.1, p.2 - 1)] else [])

/-- Fuel-bounded flood fill collecting the 4-connected region of value `v`
reachable from the stack, used to model one region emitted by
`rasterio.features.shapes`. -/
def flood (g : List (List Nat)) (v : Nat) :
    Nat → List (Nat × Nat) → List (Nat × Nat) → List (Nat × Nat)
  | 0, _, vis => vis
  | _ + 1, [], vis => vis
  | fuel + 1, p :: st, vis =>
    if p ∈ vis then flood g v fuel st vis
    else if pixA g p.1 p.2 = some v then flood g v fuel (nbrs p ++ st) (p :: vis)
    else flood g v fuel st vis

/-- Fuel bound large enough for every flood fill over `g`. -/
def floodFuel (g : List (List Nat)) : Nat := 5 * (g.map List.length).sum + 5

/-- All pixel positions of a grid in row-major (raster scan) order. -/
def allPos (g : List (List Nat)) : List (Nat × Nat) :=
  (List.range g.length).flatMap
    (fun i => (List.range (((g.get? i).map List.length).getD 0)).map (fun j => (i, j)))

/-- Worker for `shapesList`: scans seed positions in row-major order and emits
one `(region pixels, value)` pair per maximal 4-connected equal-valued region,
skipping positions already assigned to an emitted region. -/
def shapesAux (g : List (List Nat)) :
    List (Nat × Nat) → List (Nat × Nat) → List (List (Nat × Nat) × Nat)
  | [], _ => []
  | p :: ps, seen =>
    if p ∈ seen then shapesAux g ps seen
    else
      match pixA g p.1 p.2 with
      | none => shapesAux g ps seen
      | some v =>
        let comp := flood g v (floodFuel g) [p] []
        (comp, v) :: shapesAux g ps (comp ++ seen)

/-- Model of `rasterio.features.shapes(mask)`: the connected equal-valued
regions of the grid with their values, in row-major discovery order.  A region's
polygon geometry is represented by its pixel set (the pixel-edge boundary
tracing is a bijective re-encoding of that set and is not modelled further). -/
def shapesList (g : List (List Nat)) : List (List (Nat × Nat) × Nat) :=
  shapesAux g (allPos g) []

/-- A vector output (`geopandas.GeoDataFrame`): one value-attribute and one
polygon (represented by its source pixel region) per feature, plus the CRS.
The source's empty result `GeoDataFrame(geometry=[], crs=crs)` is the value
with both lists empty. -/
structure FeatureCollection where
  values : List Nat
  geoms : List (List (Nat × Nat))
  crs : String
deriving DecidableEq

/-- The binary loss mask of `RasterOperations.detect_vegetation_loss`:
`(ndvi_array < threshold).astype(np.uint8)`. -/
def lossMaskOf (arr : Arr2) (threshold : ℚ) : List (List Nat) :=
  arr.map (fun row => row.map (fun x => if x < threshold then 1 else 0))

/-- `RasterOperations.detect_vegetation_loss`: threshold the difference raster
into a binary mask, vectorize it with `shapes`, and keep the regions of
value 1.  (The `min_area_pixels` parameter is accepted by the source but never
used, so it is omitted here.) -/
def detect_vegetation_loss (ndvi_diff : RasterInput) (threshold : ℚ) :
    FeatureCollection :=
  let comps := (shapesList (lossMaskOf (loadArray ndvi_diff) threshold)).filter
    (fun c => c.2 = 1)
  { values := comps.map (fun c => c.2)
    geoms := comps.map (fun c => c.1)
    crs := loadCrs ndvi_diff }

/-- The thresholding step of `RasterOperations.vectorize_raster`: dispatch on
the operator name, raising `ValueError("Unknown operator: ...")` for an
unrecognized operator; with no threshold the mask is `array > 0`. -/
def vectorizeMask (array : Arr2) (threshold : Option ℚ) (op : String) :
    Except String (List (List Nat)) :=
  match threshold with
  | some t =>
    if op = "greater" then
      .ok (array.map (fun row => row.map (fun x => if t < x then 1 else 0)))
    else if op = "less" then
      .ok (array.map (fun row => row.map (fun x => if x < t then 1 else 0)))
    else if op = "equal" then
      .ok (array.map (fun row => row.map (fun x => if x = t then 1 else 0)))
    else .error ("Unknown operator: " ++ op)
  | none => .ok (array.map (fun row => row.map (fun x => if 0 < x then 1 else 0)))

/-- `RasterOperations.vectorize_raster`: optionally threshold, then vectorize
the binary mask keeping the value-1 regions; the output carries the source
CRS (or the `"EPSG:4326"` fallback for array input). -/
def vectorize_raster (raster : RasterInput) (threshold : Option ℚ) (op : String) :
    Except String FeatureCollection :=
  match vectorizeMask (loadArray raster) threshold op with
  | .error e => .error e
  | .ok m =>
    let comps := (shapesList m).filter (fun c => c.2 = 1)
    .ok { values := comps.map (fun c => c.2)
          geoms := comps.map (fun c => c.1)
          crs := loadCrs raster }

/-! ### Zonal statistics (`RasterOperations.zonal_stats`) -/

/-- A statistic name from the supported set (the spec's
`stats: [mean|min|max|std|sum|count]`). -/
inductive StatName where
  | mean | smin | smax | std | ssum | count
deriving DecidableEq

/-- A zone of the input `ZoneCollection`.  The geometric step — masking the
file raster to the zone geometry via the external `rasterio.mask.mask`
collaborator — is modelled by its outcome: either the flattened pixel values of
the cropped masked array (with `-9999` fill outside the geometry), or the
exception raised for a malformed or non-overlapping geometry. -/
structure Zone where
  masked : Except Unit (List ℚ)

/-- Python `int(·)` on a rational: truncation toward zero. -/
def truncInt (q : ℚ) : ℤ := if 0 ≤ q then ⌊q⌋ else ⌈q⌉

/-- Insert a value into a sorted list of distinct values (helper for `npUnique`). -/
def insertSortedD (x : ℚ) : List ℚ → List ℚ
  | [] => [x]
  | y :: ys => if x = y then y :: ys else if x < y then x :: y :: ys
               else y :: insertSortedD x ys

/-- `np.unique(values, return_counts=True)`: the distinct values in increasing
order, each with its multiplicity. -/
def npUnique (vs : List ℚ) : List (ℚ × Nat) :=
  (vs.foldr insertSortedD []).map (fun v => (v, vs.count v))

/-- Python `dict(zip(ks, cs))` semantics on an association list: first
occurrence keeps its position, a later duplicate key overwrites the value. -/
def dictOfPairs (ps : List (ℤ × Nat)) : List (ℤ × Nat) :=
  ps.foldl (fun acc kc =>
    if acc.any (fun e => e.1 = kc.1)
    then acc.map (fun e => if e.1 = kc.1 then kc else e)
    else acc ++ [kc]) []

/-- The categorical histogram of one zone:
`dict(zip(unique.astype(int), counts.astype(int)))`. -/
def histogram (vs : List ℚ) : List (ℤ × Nat) :=
  dictOfPairs ((npUnique vs).map (fun vc => (truncInt vc.1, vc.2)))

/-- The valid values of a zone: the masked pixels with the `-9999` nodata fill
removed (`values[values != -9999]`; the following NaN filter is vacuous over ℚ). -/
def validValues (vs : List ℚ) : List ℚ := vs.filter (fun x => x ≠ -9999)

/-- One aggregate statistic over the (nonempty) valid values of a zone.  `std`
is `np.std`, the square root of the mean squared deviation; its square root is
irrational in general, so the stored value is modelled by its square (the
population variance), which determines the nonnegative `np.std` uniquely — no
claim inspects the numeric value of `std`. -/
def statValue : StatName → List ℚ → ℚ
  | .mean, vs => vs.sum / vs.length
  | .smin, vs => match vs with
    | [] => 0
    | h :: t => t.foldl min h
  | .smax, vs => match vs with
    | [] => 0
    | h :: t => t.foldl max h
  | .std, vs => (vs.map (fun x => (x - vs.sum / vs.length) ^ 2)).sum / vs.length
  | .ssum, vs => vs.sum
  | .count, vs => vs.length

/-- The extraction step for one zone: for a file raster, the external masking
outcome carried by the zone; for an in-memory array, the source skips masking
entirely and uses the whole raster array (`values = raster_array`, flattened by
the subsequent boolean indexing). -/
def zoneExtract (raster : RasterInput) (z : Zone) : Except Unit (List ℚ) :=
  match raster with
  | .file _ => z.masked
  | .mem a => .ok a.flatten

/-- The entry appended to a requested statistic's column for one zone: `np.nan`
(modelled as `none`) when the masking step raised or no valid pixels remain,
otherwise the computed statistic. -/
def zsEntry (extract : Except Unit (List ℚ)) (s : StatName) : Option ℚ :=
  match extract with
  | .error _ => none
  | .ok vs =>
    let values := validValues vs
    if values.isEmpty then none else some (statValue s values)

/-- The entry appended to the `categories` list for one zone, when any: the
exception branch and the zero-valid-pixels `continue` branch append nothing. -/
def zsCat (extract : Except Unit (List ℚ)) : Option (List (ℤ × Nat)) :=
  match extract with
  | .error _ => none
  | .ok vs =>
    let values := validValues vs
    if values.isEmpty then none else some (histogram values)

/-- The accumulating result dictionary of `zonal_stats`.  The Python dict
`{stat: [] for stat in stats}` is modelled as a total function on `StatName`
mapping non-requested statistics (absent keys) to the empty list; `cats` is the
`results['categories']` list (empty when categorical mode is off). -/
structure ZonalAcc where
  zcols : StatName → List (Option ℚ)
  cats : List (List (ℤ × Nat))

/-- Append one entry to the column of every requested statistic (the spec's
`stats` is a set, so each requested statistic is appended to exactly once per
zone, matching the source's `if 'mean' in stats: ...` chain and its
`for stat in stats` missing-value branches). -/
def appendAll (stats : List StatName) (f : StatName → Option ℚ) (acc : ZonalAcc) :
    ZonalAcc :=
  { acc with zcols := fun s => if s ∈ stats then acc.zcols s ++ [f s] else acc.zcols s }

/-- The body of the per-polygon loop of `RasterOperations.zonal_stats`. -/
def stepZone (stats : List StatName) (categorical : Bool) (raster : RasterInput)
    (acc : ZonalAcc) (z : Zone) : ZonalAcc :=
  match zoneExtract raster z with
  | .error _ => appendAll stats (fun _ => none) acc
  | .ok vs =>
    let values := validValues vs
    if values.isEmpty then appendAll stats (fun _ => none) acc
    else
      let acc1 := appendAll stats (fun s => some (statValue s values)) acc
      if categorical then { acc1 with cats := acc1.cats ++ [histogram values] }
      else acc1

/-- `RasterOperations.zonal_stats`: fold the per-zone processing over the zone
collection in order, starting from the empty result dictionary. -/
def zonal_stats (raster : RasterInput) (zones : List Zone)
    (stats : List StatName) (categorical : Bool) : ZonalAcc :=
  zones.foldl (stepZone stats categorical raster) ⟨fun _ => [], []⟩

/-! ### Raster algebra (`RasterOperations.raster_calculator`) -/

/-- A Python expression over named rasters as passed to
`eval(expression, {"__builtins__": {}}, arrays)`.  The arithmetic constructors
are the whitelisted grammar of spec §9; `gt`/`lt` are representative
non-whitelisted terms (numpy comparison operators, which Python `eval` happily
evaluates to boolean arrays, modelled as 0/1 arrays). -/
inductive PyExpr where
  | const : ℚ → PyExpr
  | evar : String → PyExpr
  | add : PyExpr → PyExpr → PyExpr
  | sub : PyExpr → PyExpr → PyExpr
  | mul : PyExpr → PyExpr → PyExpr
  | div : PyExpr → PyExpr → PyExpr
  | gt : PyExpr → PyExpr → PyExpr
  | lt : PyExpr → PyExpr → PyExpr
deriving DecidableEq

/-- The whitelist of spec §9: arithmetic operators, constants and named grid
references only.  Comparison operators are outside the whitelist. -/
def whitelisted : PyExpr → Bool
  | .const _ => true
  | .evar _ => true
  | .add a b => whitelisted a && whitelisted b
  | .sub a b => whitelisted a && whitelisted b
  | .mul a b => whitelisted a && whitelisted b
  | .div a b => whitelisted a && whitelisted b
  | .gt _ _ => false
  | .lt _ _ => false

/-- Helper lifting a binary numpy operation into the evaluator. -/
def evalBinop (f : ℚ → ℚ → ℚ) (x y : Arr2) : Except String Arr2 :=
  match npBinop f x y with
  | some r => .ok r
  | none => .error "operands could not be broadcast together"

/-- Model of Python `eval` on the expression, exactly as the source runs it: it
evaluates every syntactically valid term, whitelisted or not; the only failures
are unresolvable names (`NameError`) and numpy broadcast errors.  A scalar
constant is a 1x1 array (numpy broadcasts it against any shape). -/
def pyEval (env : List (String × Arr2)) : PyExpr → Except String Arr2
  | .const c => .ok [[c]]
  | .evar s =>
    match env.lookup s with
    | some a => .ok a
    | none => .error ("name " ++ s ++ " is not defined")
  | .add a b => do evalBinop (fun x y => x + y) (← pyEval env a) (← pyEval env b)
  | .sub a b => do evalBinop (fun x y => x - y) (← pyEval env a) (← pyEval env b)
  | .mul a b => do evalBinop (fun x y => x * y) (← pyEval env a) (← pyEval env b)
  | .div a b => do evalBinop (fun x y => x / y) (← pyEval env a) (← pyEval env b)
  | .gt a b => do evalBinop (fun x y => if y < x then 1 else 0) (← pyEval env a) (← pyEval env b)
  | .lt a b => do evalBinop (fun x y => if x < y then 1 else 0) (← pyEval env a) (← pyEval env b)

/-- `RasterOperations.raster_calculator`: load the named rasters (taken here
already in memory) and hand the expression straight to the general-purpose
evaluator — no whitelist check is performed before evaluation. -/
def raster_calculator (expression : PyExpr) (rasters : List (String × Arr2)) :
    Except String Arr2 :=
  pyEval rasters expression

/-! ### Helper lemmas -/

instance {ε α : Type} [DecidableEq ε] [DecidableEq α] : DecidableEq (Except ε α) :=
  fun u v =>
    match u, v with
    | .ok a, .ok b => decidable_of_iff (a = b) (by simp)
    | .error a, .error b => decidable_of_iff (a = b) (by simp)
    | .ok _, .error _ => .isFalse (fun hc => Except.noConfusion hc)
    | .error _, .ok _ => .isFalse (fun hc => Except.noConfusion hc)

theorem getElem?_lt_length {α : Type} {l : List α} {n : Nat} {x : α}
    (h : l[n]? = some x) : n < l.length := by
  by_contra hn
  rw [List.getElem?_eq_none (Nat.le_of_not_lt hn)] at h
  cases h

theorem pixA_split {α : Type} {g : List (List α)} {i j : Nat} {x : α}
    (h : pixA g i j = some x) : ∃ row, g[i]? = some row ∧ row[j]? = some x := by
  unfold pixA at h
  cases hg : g[i]? with
  | none => rw [hg] at h; cases h
  | some row => rw [hg] at h; exact ⟨row, rfl, h⟩

theorem pixA_mem {α : Type} {g : List (List α)} {i j : Nat} {x : α}
    (h : pixA g i j = some x) : ∃ row ∈ g, x ∈ row := by
  obtain ⟨row, hg, hr⟩ := pixA_split h
  exact ⟨row, List.getElem?_mem hg, List.getElem?_mem hr⟩

theorem bidx_lt {len i : Nat} (h : i < len) : bidx len i = i := by
  unfold bidx
  split
  · omega
  · rfl

theorem bcast_self (m : Nat) : bcast m m = some m := by
  unfold bcast
  simp

theorem shape2_parts {α : Type} {a b : List (List α)} (h : shape2 a = shape2 b) :
    a.length = b.length ∧ cols a = cols b := by
  exact ⟨congrArg Prod.fst h, congrArg Prod.snd h⟩

theorem npBinop_some (f : ℚ → ℚ → ℚ) (a b : Arr2) (hsh : shape2 a = shape2 b) :
    npBinop f a b = some ((List.range a.length).map (fun i =>
      (List.range (cols a)).map (fun j =>
        f (pixD a (bidx a.length i) (bidx (cols a) j))
          (pixD b (bidx b.length i) (bidx (cols b) j))))) := by
  obtain ⟨hl, hc⟩ := shape2_parts hsh
  unfold npBinop
  rw [← hl, ← hc, bcast_self, bcast_self]

theorem pixA_of_ranges {β : Type} (F : Nat → Nat → β) {r c i j : Nat}
    (hi : i < r) (hj : j < c) :
    pixA ((List.range r).map (fun i => (List.range c).map (F i))) i j
      = some (F i j) := by
  unfold pixA
  rw [List.getElem?_map, List.getElem?_range hi]
  simp [List.getElem?_map, List.getElem?_range hj]

theorem npBinop_pix (f : ℚ → ℚ → ℚ) (a b : Arr2) (ha : Rect a) (_hb : Rect b)
    (hsh : shape2 a = shape2 b) (i j : Nat) (x y : ℚ)
    (hx : pixA a i j = some x) (hy : pixA b i j = some y) :
    ∃ out, npBinop f a b = some out ∧ pixA out i j = some (f x y) := by
  obtain ⟨hl, hc⟩ := shape2_parts hsh
  obtain ⟨rowa, hga, hra⟩ := pixA_split hx
  have hi : i < a.length := getElem?_lt_length hga
  have hj : j < cols a := by
    rw [← ha rowa (List.getElem?_mem hga)]
    exact getElem?_lt_length hra
  refine ⟨_, npBinop_some f a b hsh, ?_⟩
  rw [pixA_of_ranges _ hi hj]
  rw [bidx_lt hi, bidx_lt hj, ← hl, ← hc, bidx_lt hi, bidx_lt hj]
  unfold pixD
  rw [hx, hy]
  rfl

/-! ### C3: normalized-difference index formula and clamping -/

/-- Claim C3, counterexample.  At bands red = −1, nir = 2 the denominator is
nonzero and the raw formula value is 3, but the output pixel of `compute_ndvi`
is the clamped value 1, not 3: the output does not equal
`(bandB − bandA) / (bandB + bandA)` whenever the denominator is nonzero. -/
theorem c3_counterexample :
    compute_ndvi [[-1]] [[2]] = some [[1]]
      ∧ ((2 : ℚ) - (-1)) / (2 + (-1)) = 3
      ∧ (1 : ℚ) ≠ 3 := by
  refine ⟨?_, by norm_num, by norm_num⟩
  simp [compute_ndvi, npBinop, bcast, cols, pixD, pixA, bidx, ndviPixel, npClip,
    min_def, max_def]
  norm_num

/-- Claim C3, amended.  Each output pixel of `compute_ndvi` equals the clamp of
`(nir − red) / (nir + red)` to `[-1, 1]` where the denominator is nonzero,
equals exactly 0 where the denominator is exactly zero, and every output pixel
lies in the closed interval `[-1, 1]`. -/
theorem c3_clamped_formula (red nir : Arr2) (hr : Rect red) (hn : Rect nir)
    (hsh : shape2 red = shape2 nir) (i j : Nat) (r n : ℚ)
    (hri : pixA red i j = some r) (hni : pixA nir i j = some n) :
    ∃ out, compute_ndvi red nir = some out
      ∧ pixA out i j
          = some (if n + r = 0 then 0 else npClip ((n - r) / (n + r)) (-1) 1)
      ∧ (∀ y : ℚ, pixA out i j = some y → -1 ≤ y ∧ y ≤ 1) := by
  obtain ⟨out, hout, hpix⟩ := npBinop_pix ndviPixel red nir hr hn hsh i j r n hri hni
  have hval : ndviPixel r n
      = if n + r = 0 then 0 else npClip ((n - r) / (n + r)) (-1) 1 := by
    unfold ndviPixel
    by_cases h0 : n + r = 0
    · rw [if_pos h0, if_pos h0]
      decide
    · rw [if_neg h0, if_neg h0]
  refine ⟨out, hout, by rw [hpix, hval], ?_⟩
  intro y hyp
  rw [hpix] at hyp
  have hy : y = ndviPixel r n := by
    injection hyp.symm
  subst hy
  unfold ndviPixel npClip
  constructor
  · exact le_min (le_max_right _ _) (by norm_num)
  · exact min_le_right _ _

/-- Claim C3 witness: the amended theorem applied at concrete 1x1 bands. -/
theorem c3_clamped_formula_witness :
    ∃ out, compute_ndvi [[1]] [[3]] = some out
      ∧ pixA out 0 0
          = some (if (3 : ℚ) + 1 = 0 then 0 else npClip ((3 - 1) / (3 + 1)) (-1) 1)
      ∧ (∀ y : ℚ, pixA out 0 0 = some y → -1 ≤ y ∧ y ≤ 1) :=
  c3_clamped_formula [[1]] [[3]] (by decide) (by decide) (by decide) 0 0 1 3
    (by decide) (by decide)

/-! ### C6, C4, C1: differencing -/

theorem ndvi_difference_aligned (resample : FileRaster → FileRaster → Arr2)
    (f1 f2 : FileRaster) (hsh : shape2 f1.data = shape2 f2.data)
    (htr : f1.transform = f2.transform) :
    ndvi_difference resample (.file f1) (.file f2)
      = npBinop (fun x y => x - y) f2.data f1.data := by
  show (if shape2 f1.data ≠ shape2 f2.data ∨ f1.transform ≠ f2.transform then
      npBinop (fun x y => x - y) (resample f2 f1) f1.data
    else npBinop (fun x y => x - y) f2.data f1.data)
      = npBinop (fun x y => x - y) f2.data f1.data
  rw [if_neg]
  push_neg
  exact ⟨hsh, htr⟩

/-- Claim C6, confirmed (stated for aligned file-backed grids, where alignment
— equal shape and transform — is meaningful).  `ndvi_difference` computes the
plain elementwise difference, so swapping the arguments negates every pixel of
the result; the claim's restriction to non-nodata pixels is subsumed, since the
equality holds at every pixel. -/
theorem c6_antisymmetry (resample : FileRaster → FileRaster → Arr2)
    (A B : FileRaster) (hsh : shape2 A.data = shape2 B.data)
    (htr : A.transform = B.transform) :
    ndvi_difference resample (.file B) (.file A)
      = (ndvi_difference resample (.file A) (.file B)).map npNeg := by
  obtain ⟨hl, hc⟩ := shape2_parts hsh
  rw [ndvi_difference_aligned resample A B hsh htr,
    ndvi_difference_aligned resample B A hsh.symm htr.symm,
    npBinop_some _ _ _ hsh.symm, npBinop_some _ _ _ hsh]
  rw [← hl, ← hc]
  show some _ = some (npNeg _)
  apply congrArg
  simp only [npNeg, List.map_map]
  congr 1
  funext i
  simp only [Function.comp_apply, List.map_map]
  congr 1
  funext j
  simp only [Function.comp_apply]
  ring

/-- Claim C6 witness: the theorem applied to two concrete aligned 2x2 grids. -/
theorem c6_antisymmetry_witness :
    ndvi_difference (fun _ g => g.data)
        (.file ⟨[[1, 2], [3, 4]], ⟨1, 0, 0, 0, 1, 0⟩, "EPSG:4326"⟩)
        (.file ⟨[[0, 5], [7, 2]], ⟨1, 0, 0, 0, 1, 0⟩, "EPSG:4326"⟩)
      = (ndvi_difference (fun _ g => g.data)
          (.file ⟨[[0, 5], [7, 2]], ⟨1, 0, 0, 0, 1, 0⟩, "EPSG:4326"⟩)
          (.file ⟨[[1, 2], [3, 4]], ⟨1, 0, 0, 0, 1, 0⟩, "EPSG:4326"⟩)).map npNeg :=
  c6_antisymmetry (fun _ g => g.data)
    ⟨[[0, 5], [7, 2]], ⟨1, 0, 0, 0, 1, 0⟩, "EPSG:4326"⟩
    ⟨[[1, 2], [3, 4]], ⟨1, 0, 0, 0, 1, 0⟩, "EPSG:4326"⟩ (by decide) (by decide)

/-- Claim C4, counterexample.  Two aligned 1x1 grids (equal transform, equal
shape) where the first grid's pixel is the nodata sentinel −9999: the source
computes the plain difference 5 − (−9999) = 10004, not the nodata sentinel, so
nodata does not propagate into the result. -/
theorem c4_counterexample :
    ndvi_difference (fun _ g => g.data)
        (.file ⟨[[-9999]], ⟨1, 0, 0, 0, 1, 0⟩, "EPSG:4326"⟩)
        (.file ⟨[[5]], ⟨1, 0, 0, 0, 1, 0⟩, "EPSG:4326"⟩)
      = some [[10004]] ∧ (10004 : ℚ) ≠ -9999 := by
  constructor
  · norm_num [ndvi_difference, shape2, cols, AffineT.mk.injEq, npBinop, bcast,
      bidx, pixD, pixA, List.range_succ]
  · norm_num

/-- Claim C4, amended.  For aligned grids, every pixel of the difference equals
`t2 − t1` — including pixels where either input holds the nodata sentinel,
which participate in the subtraction like ordinary values; nodata is not
propagated. -/
theorem c4_plain_difference (resample : FileRaster → FileRaster → Arr2)
    (f1 f2 : FileRaster) (h1 : Rect f1.data) (h2 : Rect f2.data)
    (hsh : shape2 f1.data = shape2 f2.data) (htr : f1.transform = f2.transform)
    (i j : Nat) (x1 x2 : ℚ)
    (hx1 : pixA f1.data i j = some x1) (hx2 : pixA f2.data i j = some x2) :
    ∃ d, ndvi_difference resample (.file f1) (.file f2) = some d
      ∧ pixA d i j = some (x2 - x1) := by
  rw [ndvi_difference_aligned resample f1 f2 hsh htr]
  exact npBinop_pix _ f2.data f1.data h2 h1 hsh.symm i j x2 x1 hx2 hx1

/-- Claim C4 witness: concrete aligned grids, one containing a nodata pixel. -/
theorem c4_plain_difference_witness :
    ∃ d, ndvi_difference (fun _ g => g.data)
        (.file ⟨[[-9999, 1]], ⟨1, 0, 0, 0, 1, 0⟩, "a"⟩)
        (.file ⟨[[5, 3]], ⟨1, 0, 0, 0, 1, 0⟩, "a"⟩) = some d
      ∧ pixA d 0 0 = some ((5 : ℚ) - (-9999)) :=
  c4_plain_difference (fun _ g => g.data)
    ⟨[[-9999, 1]], ⟨1, 0, 0, 0, 1, 0⟩, "a"⟩ ⟨[[5, 3]], ⟨1, 0, 0, 0, 1, 0⟩, "a"⟩
    (by decide) (by decide) (by decide) (by decide) 0 0 (-9999) 5
    (by decide) (by decide)

/-- Claim C1, counterexample.  Grids of different shape passed to
`ndvi_difference` without prior alignment do not raise any alignment error:
for in-memory grids of shapes (1,1) and (2,2) the pixelwise difference is
silently computed by numpy broadcasting, and for file-backed grids with
different transforms the second grid is silently resampled and differenced
(here with a concrete stand-in for the `reproject` collaborator) — in both
cases the operation succeeds instead of raising `AlignmentError`. -/
theorem c1_counterexample :
    ndvi_difference (fun _ g => g.data) (.mem [[1]]) (.mem [[2, 3], [4, 5]])
        = some [[1, 2], [3, 4]]
      ∧ ndvi_difference (fun _ g => npNeg g.data)
          (.file ⟨[[1]], ⟨1, 0, 0, 0, 1, 0⟩, "EPSG:4326"⟩)
          (.file ⟨[[5]], ⟨2, 0, 0, 0, 2, 0⟩, "EPSG:4326"⟩)
        = some [[-2]] := by
  constructor
  · norm_num [ndvi_difference, npBinop, bcast, cols, bidx, pixD, pixA,
      List.range_succ]
  · norm_num [ndvi_difference, shape2, cols, AffineT.mk.injEq, npNeg, npBinop,
      bcast, bidx, pixD, pixA, List.range_succ]

/-- Claim C1, amended.  Mismatched grids passed to `ndvi_difference` are never
rejected: for file-backed inputs whose shape or transform differ, the second
grid is silently resampled onto the first grid's pixel grid (the `reproject`
destination has the first grid's shape) and the difference is then computed
successfully; no `AlignmentError` is raised. -/
theorem c1_mismatch_silently_computes
    (resample : FileRaster → FileRaster → Arr2) (f1 f2 : FileRaster)
    (hmis : shape2 f1.data ≠ shape2 f2.data ∨ f1.transform ≠ f2.transform)
    (hres : shape2 (resample f2 f1) = shape2 f1.data) :
    ∃ d, ndvi_difference resample (.file f1) (.file f2) = some d := by
  show ∃ d, (if shape2 f1.data ≠ shape2 f2.data ∨ f1.transform ≠ f2.transform then
      npBinop (fun x y => x - y) (resample f2 f1) f1.data
    else npBinop (fun x y => x - y) f2.data f1.data) = some d
  rw [if_pos hmis, npBinop_some _ _ _ hres]
  exact ⟨_, rfl⟩

/-- Claim C1 witness: concrete mismatched file grids and a concrete resampler. -/
theorem c1_mismatch_witness :
    ∃ d, ndvi_difference (fun g _ => g.data)
        (.file ⟨[[1]], ⟨1, 0, 0, 0, 1, 0⟩, "a"⟩)
        (.file ⟨[[5]], ⟨3, 0, 0, 0, 3, 0⟩, "a"⟩) = some d :=
  c1_mismatch_silently_computes (fun g _ => g.data)
    ⟨[[1]], ⟨1, 0, 0, 0, 1, 0⟩, "a"⟩ ⟨[[5]], ⟨3, 0, 0, 0, 3, 0⟩, "a"⟩
    (by decide) (by decide)

/-! ### C9, C5: vectorization and classification -/

theorem pixA_map2 {α β : Type} (f : α → β) (g : List (List α)) (i j : Nat) :
    pixA (g.map (fun row => row.map f)) i j = (pixA g i j).map f := by
  unfold pixA
  rw [List.getElem?_map]
  cases g[i]? <;> simp [List.getElem?_map]

theorem shapesAux_val {g : List (List Nat)} :
    ∀ (ps seen : List (Nat × Nat)) (c : List (Nat × Nat)) (v : Nat),
      (c, v) ∈ shapesAux g ps seen → ∃ p : Nat × Nat, pixA g p.1 p.2 = some v := by
  intro ps
  induction ps with
  | nil => intro seen c v h; simp [shapesAux] at h
  | cons p ps ih =>
    intro seen c v h
    unfold shapesAux at h
    by_cases hp : p ∈ seen
    · rw [if_pos hp] at h
      exact ih _ _ _ h
    · rw [if_neg hp] at h
      cases hpix : pixA g p.1 p.2 with
      | none => rw [hpix] at h; exact ih _ _ _ h
      | some v0 =>
        rw [hpix] at h
        simp only [List.mem_cons] at h
        rcases h with heq | h
        · have hv : v = v0 := congrArg Prod.snd heq
          exact ⟨p, by rw [hpix, hv]⟩
        · exact ih _ _ _ h

theorem shapesList_val {g : List (List Nat)} {c : List (Nat × Nat)} {v : Nat}
    (h : (c, v) ∈ shapesList g) : ∃ p : Nat × Nat, pixA g p.1 p.2 = some v :=
  shapesAux_val _ _ _ _ h

/-- Claim C9, confirmed.  For every raster whose computed mask contains no
foreground (value-1) pixels — in particular a raster that is entirely nodata,
whose default mask `array > 0` is all zeros — `vectorize_raster` returns an
empty FeatureCollection carrying the CRS of the source raster, and does not
raise an error. -/
theorem c9_empty_vectorize (raster : RasterInput) (threshold : Option ℚ)
    (op : String) (m : List (List Nat))
    (hm : vectorizeMask (loadArray raster) threshold op = .ok m)
    (hempty : ∀ row ∈ m, ∀ x ∈ row, x ≠ 1) :
    vectorize_raster raster threshold op = .ok ⟨[], [], loadCrs raster⟩ := by
  unfold vectorize_raster
  rw [hm]
  have hfil : (shapesList m).filter (fun c => c.2 = 1) = [] := by
    rw [List.filter_eq_nil_iff]
    intro cv hcv
    obtain ⟨p, hpix⟩ := shapesList_val (c := cv.1) (v := cv.2) (by simpa using hcv)
    obtain ⟨row, hrow, hx⟩ := pixA_mem hpix
    simpa using hempty row hrow cv.2 hx
  simp [hfil]

/-- Claim C9 witness: an entirely-nodata 2x2 in-memory raster with the default
(no-threshold) mask yields the empty collection with the fallback CRS. -/
theorem c9_empty_vectorize_witness :
    vectorize_raster (.mem [[-9999, -9999], [-9999, -9999]]) none "greater"
      = .ok ⟨[], [], "EPSG:4326"⟩ :=
  c9_empty_vectorize (.mem [[-9999, -9999], [-9999, -9999]]) none "greater"
    [[0, 0], [0, 0]] (by decide) (by decide)

/-- Claim C5, counterexample.  A nodata pixel (−9999) is not excluded by the
classifier: with loss threshold −1 it satisfies `pixel < threshold`, is set to
1 in the mask, and `detect_vegetation_loss` consequently reports the
all-nodata raster as a vegetation-loss polygon. -/
theorem c5_counterexample :
    lossMaskOf [[-9999]] (-1) = [[1]]
      ∧ (detect_vegetation_loss (.mem [[-9999]]) (-1)).values = [1] := by
  constructor
  · decide
  · decide

/-- Claim C5, amended.  The classifiers set a mask pixel to 1 exactly when
`operator(pixel, threshold)` holds, with no exclusion of nodata pixels: a
nodata-valued pixel satisfying the comparison appears as 1 in the mask. -/
theorem c5_mask_ignores_nodata (arr : Arr2) (t : ℚ) (i j : Nat) (x : ℚ)
    (hx : pixA arr i j = some x) :
    pixA (lossMaskOf arr t) i j = some (if x < t then 1 else 0)
      ∧ (∀ m, vectorizeMask arr (some t) "less" = .ok m
          → pixA m i j = some (if x < t then 1 else 0))
      ∧ (∀ m, vectorizeMask arr (some t) "greater" = .ok m
          → pixA m i j = some (if t < x then 1 else 0))
      ∧ (∀ m, vectorizeMask arr (some t) "equal" = .ok m
          → pixA m i j = some (if x = t then 1 else 0)) := by
  refine ⟨?_, ?_, ?_, ?_⟩
  · unfold lossMaskOf
    rw [pixA_map2, hx]
    rfl
  · intro m hm
    have hred : vectorizeMask arr (some t) "less"
        = .ok (arr.map (fun row => row.map (fun x => if x < t then 1 else 0))) := rfl
    rw [hred] at hm
    injection hm with hm
    rw [← hm, pixA_map2, hx]
    rfl
  · intro m hm
    have hred : vectorizeMask arr (some t) "greater"
        = .ok (arr.map (fun row => row.map (fun x => if t < x then 1 else 0))) := rfl
    rw [hred] at hm
    injection hm with hm
    rw [← hm, pixA_map2, hx]
    rfl
  · intro m hm
    have hred : vectorizeMask arr (some t) "equal"
        = .ok (arr.map (fun row => row.map (fun x => if x = t then 1 else 0))) := rfl
    rw [hred] at hm
    injection hm with hm
    rw [← hm, pixA_map2, hx]
    rfl

/-- Claim C5 witness: the theorem applied at a concrete grid holding a nodata
pixel, which the mask classifies as 1. -/
theorem c5_mask_ignores_nodata_witness :
    pixA (lossMaskOf [[-9999, 3]] (-1)) 0 0
        = some (if (-9999 : ℚ) < -1 then 1 else 0)
      ∧ (∀ m, vectorizeMask [[-9999, 3]] (some (-1)) "less" = .ok m
          → pixA m 0 0 = some (if (-9999 : ℚ) < -1 then 1 else 0))
      ∧ (∀ m, vectorizeMask [[-9999, 3]] (some (-1)) "greater" = .ok m
          → pixA m 0 0 = some (if (-1 : ℚ) < -9999 then 1 else 0))
      ∧ (∀ m, vectorizeMask [[-9999, 3]] (some (-1)) "equal" = .ok m
          → pixA m 0 0 = some (if (-9999 : ℚ) = -1 then 1 else 0)) :=
  c5_mask_ignores_nodata [[-9999, 3]] (-1) 0 0 (-9999) (by decide)

/-! ### C2: operator validation and the raster-algebra evaluator -/

/-- Claim C2, counterexample.  A raster-algebra expression containing the
non-whitelisted comparison term `B8 > B4` is not rejected before computation:
`raster_calculator` hands it unchecked to the general-purpose evaluator, which
evaluates it successfully to a boolean (0/1) array. -/
theorem c2_counterexample :
    whitelisted (PyExpr.gt (.evar "B8") (.evar "B4")) = false
      ∧ raster_calculator (PyExpr.gt (.evar "B8") (.evar "B4"))
          [("B8", [[2]]), ("B4", [[1]])] = .ok [[1]] := by
  constructor
  · rfl
  · decide

/-- Claim C2, amended.  A `vectorize_raster` call that supplies a threshold
together with an operator outside {greater, less, equal} fails with the
unknown-operator error before any mask computation; but raster-algebra
expressions are not whitelist-checked: `raster_calculator` evaluates arbitrary
expressions — including non-whitelisted comparison terms — with a
general-purpose evaluator instead of rejecting them. -/
theorem c2_operator_check_and_eval (raster : RasterInput) (t : ℚ) (op : String)
    (hop : op ≠ "greater" ∧ op ≠ "less" ∧ op ≠ "equal") (x y : ℚ) :
    vectorize_raster raster (some t) op = .error ("Unknown operator: " ++ op)
      ∧ raster_calculator (.gt (.const x) (.const y)) []
          = .ok [[if y < x then 1 else 0]] := by
  constructor
  · have h1 : vectorizeMask (loadArray raster) (some t) op
        = .error ("Unknown operator: " ++ op) := by
      simp only [vectorizeMask]
      rw [if_neg hop.1, if_neg hop.2.1, if_neg hop.2.2]
    unfold vectorize_raster
    rw [h1]
  · rfl

/-- Claim C2 witness: a concrete unknown operator is rejected while a concrete
non-whitelisted comparison expression is evaluated. -/
theorem c2_operator_check_witness :
    vectorize_raster (.mem [[1]]) (some 0) "between"
        = .error ("Unknown operator: " ++ "between")
      ∧ raster_calculator (.gt (.const 2) (.const 1)) []
          = .ok [[if (1 : ℚ) < 2 then 1 else 0]] :=
  c2_operator_check_and_eval (.mem [[1]]) 0 "between"
    ⟨by decide, by decide, by decide⟩ 2 1

/-! ### C7, C8, C10: zonal statistics -/

theorem appendAll_zcols (stats : List StatName) (f : StatName → Option ℚ)
    (acc : ZonalAcc) (s : StatName) (hs : s ∈ stats) :
    (appendAll stats f acc).zcols s = acc.zcols s ++ [f s] := by
  unfold appendAll
  simp [hs]

theorem stepZone_zcols (stats : List StatName) (cat : Bool) (raster : RasterInput)
    (acc : ZonalAcc) (z : Zone) (s : StatName) (hs : s ∈ stats) :
    (stepZone stats cat raster acc z).zcols s
      = acc.zcols s ++ [zsEntry (zoneExtract raster z) s] := by
  unfold stepZone zsEntry
  cases zoneExtract raster z with
  | error e => simp [appendAll, hs]
  | ok vs =>
    cases hemp : (validValues vs).isEmpty with
    | true => simp [hemp, appendAll, hs]
    | false => cases cat <;> simp [hemp, appendAll, hs]

theorem stepZone_cats (stats : List StatName) (raster : RasterInput)
    (acc : ZonalAcc) (z : Zone) :
    (stepZone stats true raster acc z).cats
      = acc.cats ++ (zsCat (zoneExtract raster z)).toList := by
  unfold stepZone zsCat
  cases zoneExtract raster z with
  | error e => simp [appendAll]
  | ok vs =>
    by_cases hemp : (validValues vs).isEmpty
    · simp [hemp, appendAll]
    · simp [hemp, appendAll]

theorem zonal_foldl_zcols (stats : List StatName) (cat : Bool)
    (raster : RasterInput) (s : StatName) (hs : s ∈ stats) :
    ∀ (zs : List Zone) (acc : ZonalAcc),
      (zs.foldl (stepZone stats cat raster) acc).zcols s
        = acc.zcols s ++ zs.map (fun z => zsEntry (zoneExtract raster z) s) := by
  intro zs
  induction zs with
  | nil => intro acc; simp
  | cons z zs ih =>
    intro acc
    simp only [List.foldl_cons, List.map_cons]
    rw [ih, stepZone_zcols stats cat raster acc z s hs]
    simp

theorem zonal_foldl_cats (stats : List StatName) (raster : RasterInput) :
    ∀ (zs : List Zone) (acc : ZonalAcc),
      (zs.foldl (stepZone stats true raster) acc).cats
        = acc.cats ++ zs.filterMap (fun z => zsCat (zoneExtract raster z)) := by
  intro zs
  induction zs with
  | nil => intro acc; simp
  | cons z zs ih =>
    intro acc
    simp only [List.foldl_cons, List.filterMap_cons]
    rw [ih, stepZone_cats stats raster acc z]
    cases h : zsCat (zoneExtract raster z) <;> simp [h]

theorem zonal_stats_zcols (raster : RasterInput) (zs : List Zone)
    (stats : List StatName) (cat : Bool) (s : StatName) (hs : s ∈ stats) :
    (zonal_stats raster zs stats cat).zcols s
      = zs.map (fun z => zsEntry (zoneExtract raster z) s) := by
  unfold zonal_stats
  rw [zonal_foldl_zcols stats cat raster s hs]
  rfl

/-- Claim C7, confirmed.  A zone whose masking step failed, or for which no
valid (non-nodata) pixels remain, contributes the missing value (`np.nan`,
modelled `none`) to the column of every requested statistic instead of raising,
and every other zone of the batch gets exactly the column entries it would get
in a batch without the bad zone. -/
theorem c7_missing_zone_isolated (fr : FileRaster) (pre post : List Zone)
    (bad : Zone) (stats : List StatName) (cat : Bool) (s : StatName)
    (hs : s ∈ stats)
    (hbad : ∀ vs, bad.masked = Except.ok vs → validValues vs = []) :
    (zonal_stats (.file fr) (pre ++ bad :: post) stats cat).zcols s
      = (zonal_stats (.file fr) pre stats cat).zcols s
          ++ none :: (zonal_stats (.file fr) post stats cat).zcols s := by
  rw [zonal_stats_zcols _ _ _ _ _ hs, zonal_stats_zcols _ _ _ _ _ hs,
    zonal_stats_zcols _ _ _ _ _ hs, List.map_append, List.map_cons]
  have hbadnone : zsEntry (zoneExtract (.file fr) bad) s = none := by
    unfold zsEntry zoneExtract
    cases hmk : bad.masked with
    | error e => rfl
    | ok vs => simp [hbad vs hmk]
  rw [hbadnone]

/-- Claim C7 witness: a batch with a failing middle zone; its column entry is
the missing value and its neighbours keep their standalone entries. -/
theorem c7_missing_zone_witness :
    (zonal_stats (.file ⟨[[0]], ⟨1, 0, 0, 0, 1, 0⟩, "a"⟩)
        ([⟨.ok [1, 2]⟩] ++ ⟨.error ()⟩ :: [⟨.ok [3]⟩]) [.mean, .count] false).zcols .mean
      = (zonal_stats (.file ⟨[[0]], ⟨1, 0, 0, 0, 1, 0⟩, "a"⟩)
          [⟨.ok [1, 2]⟩] [.mean, .count] false).zcols .mean
        ++ none :: (zonal_stats (.file ⟨[[0]], ⟨1, 0, 0, 0, 1, 0⟩, "a"⟩)
          [⟨.ok [3]⟩] [.mean, .count] false).zcols .mean :=
  c7_missing_zone_isolated ⟨[[0]], ⟨1, 0, 0, 0, 1, 0⟩, "a"⟩
    [⟨.ok [1, 2]⟩] [⟨.ok [3]⟩] ⟨.error ()⟩ [.mean, .count] false .mean
    (by decide) (fun vs h => Except.noConfusion h)

/-- Claim C8, counterexample.  In categorical mode a zone with zero valid
pixels (here: all pixels nodata) appends no entry to the `categories` list, so
the categorical histogram does not have one entry per input zone: one zone in,
zero histogram entries out. -/
theorem c8_counterexample :
    (zonal_stats (.file ⟨[[0]], ⟨1, 0, 0, 0, 1, 0⟩, "a"⟩)
        [⟨.ok [-9999]⟩] [.mean] true).cats.length = 0
      ∧ ([(⟨.ok [-9999]⟩ : Zone)]).length = 1 := by
  constructor
  · decide
  · rfl

/-- Claim C8, amended.  Every requested statistic's column has exactly one
entry per input zone, in zone order; the categorical histogram list, however,
is parallel only to the successfully processed zones with at least one valid
pixel — zones that failed or had zero valid pixels are skipped in it, so it can
be shorter than the zone collection. -/
theorem c8_parallel_cols_cats_filtered (fr : FileRaster) (zones : List Zone)
    (stats : List StatName) (cat : Bool) (s : StatName) (hs : s ∈ stats) :
    ((zonal_stats (.file fr) zones stats cat).zcols s).length = zones.length
      ∧ (zonal_stats (.file fr) zones stats true).cats
          = zones.filterMap (fun z => zsCat (zoneExtract (.file fr) z)) := by
  constructor
  · rw [zonal_stats_zcols _ _ _ _ _ hs, List.length_map]
  · unfold zonal_stats
    rw [zonal_foldl_cats stats (.file fr) zones]
    rfl

/-- Claim C8 witness: a two-zone batch (one valid, one nodata-only) in
categorical mode; columns stay parallel while the histogram list skips the
empty zone. -/
theorem c8_parallel_witness :
    ((zonal_stats (.file ⟨[[0]], ⟨1, 0, 0, 0, 1, 0⟩, "a"⟩)
        [⟨.ok [2]⟩, ⟨.ok [-9999]⟩] [.count] true).zcols .count).length
      = ([(⟨.ok [2]⟩ : Zone), ⟨.ok [-9999]⟩]).length
    ∧ (zonal_stats (.file ⟨[[0]], ⟨1, 0, 0, 0, 1, 0⟩, "a"⟩)
        [⟨.ok [2]⟩, ⟨.ok [-9999]⟩] [.count] true).cats
      = ([(⟨.ok [2]⟩ : Zone), ⟨.ok [-9999]⟩]).filterMap
          (fun z => zsCat (zoneExtract
            (.file ⟨[[0]], ⟨1, 0, 0, 0, 1, 0⟩, "a"⟩) z)) :=
  c8_parallel_cols_cats_filtered ⟨[[0]], ⟨1, 0, 0, 0, 1, 0⟩, "a"⟩
    [⟨.ok [2]⟩, ⟨.ok [-9999]⟩] [.count] true .count (by decide)

/-- Claim C10, confirmed.  When the raster argument is an in-memory array, the
per-zone masking step is skipped (`values = raster_array`): every zone's
column entry is the statistic of the whole flattened array, so all zones of the
batch receive identical entries regardless of their geometry. -/
theorem c10_mem_identical (a : Arr2) (zones : List Zone)
    (stats : List StatName) (cat : Bool) (s : StatName) (hs : s ∈ stats) :
    (zonal_stats (.mem a) zones stats cat).zcols s
      = List.replicate zones.length (zsEntry (Except.ok a.flatten) s) := by
  rw [zonal_stats_zcols _ _ _ _ _ hs]
  have hconst : (fun z => zsEntry (zoneExtract (.mem a) z) s)
      = fun _ : Zone => zsEntry (Except.ok a.flatten) s := rfl
  rw [hconst]
  exact List.map_const' zones (zsEntry (Except.ok a.flatten) s)

/-- Claim C10 witness: two zones with very different masking outcomes receive
the identical whole-array statistic for an in-memory raster. -/
theorem c10_mem_identical_witness :
    (zonal_stats (.mem [[1, 2], [3, 4]]) [⟨.ok [9]⟩, ⟨.error ()⟩]
        [.ssum] false).zcols .ssum
      = List.replicate 2 (zsEntry (Except.ok ([[(1 : ℚ), 2], [3, 4]]).flatten) .ssum) :=
  c10_mem_identical [[1, 2], [3, 4]] [⟨.ok [9]⟩, ⟨.error ()⟩] [.ssum] false .ssum
    (by decide)

end RasterOps
